import Mathlib

/-!
Verification of the version-sync matching core against its source.

The development shallowly embeds the Rust sources of the version-sync
library: `src/helpers.rs` (the version/requirement compatibility check),
`src/contains_regex.rs` (placeholder expansion with regex escaping and the
exhaustive only-contains check), `src/contains_substring.rs` (substring
search and line-number reporting), `src/markdown_deps.rs` (TOML dependency
extraction and the markdown check), and `src/html_root_url.rs` (URL
validation).  External collaborators (the semver, regex, toml and url
crates) are modelled at the narrow interface the sources use, as the
specification directs.
-/

set_option autoImplicit false

namespace VSync

/-- Comparator operators of the semver collaborator (`semver::Op`). -/
inductive Op where
  | exact
  | greater
  | greaterEq
  | less
  | lessEq
  | tilde
  | caret
  | wildcard
  deriving DecidableEq, Repr

/-- One comparator of a version requirement (`semver::Comparator`):
operator, major, optional minor, optional patch and pre-release tag
(the empty string standing for no pre-release, as in the crate). -/
structure Comparator where
  op : Op
  major : Nat
  minor : Option Nat
  patch : Option Nat
  pre : String
  deriving DecidableEq, Repr

/-- A parsed version requirement (`semver::VersionReq`): an ordered list
of comparators. -/
structure VersionReq where
  comparators : List Comparator
  deriving DecidableEq, Repr

/-- A parsed semantic version (`semver::Version`).  Build metadata is
carried but never inspected by the embedded code. -/
structure Version where
  major : Nat
  minor : Nat
  patch : Nat
  pre : String
  build : String
  deriving DecidableEq, Repr

/-- The final pre-release check of the comparator loop body
(src/helpers.rs lines 78-83). -/
def matchComparatorPre (version : Version) (c : Comparator) : Except String Unit :=
  if c.pre ≠ version.pre then
    Except.error ("expected pre-release \"" ++ version.pre ++
      "\", found \"" ++ c.pre ++ "\"")
  else Except.ok ()

/-- The patch check of the comparator loop body (src/helpers.rs lines
70-77), followed by the pre-release check. -/
def matchComparatorPatch (version : Version) (c : Comparator) : Except String Unit :=
  match c.patch with
  | some patch =>
    if patch ≠ version.patch then
      Except.error ("expected patch version " ++ Nat.repr version.patch ++
        ", found " ++ Nat.repr patch)
    else matchComparatorPre version c
  | none => matchComparatorPre version c

/-- The body of the `for comparator in &request.comparators` loop of
`version_matches_request` (src/helpers.rs lines 53-87): comparators whose
operator is in the handled set are checked component by component, with an
early error on the first difference; other operators are skipped. -/
def matchComparator (version : Version) (c : Comparator) : Except String Unit :=
  match c.op with
  | Op.tilde | Op.caret | Op.exact | Op.greater | Op.greaterEq | Op.wildcard =>
    if c.major ≠ version.major then
      Except.error ("expected major version " ++ Nat.repr version.major ++
        ", found " ++ Nat.repr c.major)
    else match c.minor with
    | some minor =>
      if minor ≠ version.minor then
        Except.error ("expected minor version " ++ Nat.repr version.minor ++
          ", found " ++ Nat.repr minor)
      else matchComparatorPatch version c
    | none => matchComparatorPatch version c
  | _ => Except.ok ()

/-- The comparator loop of `version_matches_request`: the first failing
comparator aborts with its error, otherwise the whole list passes. -/
def checkComparators (version : Version) : List Comparator → Except String Unit
  | [] => Except.ok ()
  | c :: rest =>
    match matchComparator version c with
    | Except.error e => Except.error e
    | Except.ok _ => checkComparators version rest

/-- `version_matches_request` from src/helpers.rs (lines 47-90): verify
that the version range request matches the given version. -/
def version_matches_request (version : Version) (request : VersionReq) :
    Except String Unit :=
  checkComparators version request.comparators

/-- The set of operators the source actively checks: the first arm of the
`match comparator.op` in src/helpers.rs line 55. -/
def handledOp : Op → Bool
  | Op.tilde | Op.caret | Op.exact | Op.greater | Op.greaterEq | Op.wildcard => true
  | _ => false

/-- Spec-side compatibility of a version with one comparator, stated as a
plain conjunction (no sequencing): a comparator passes when its operator
is unhandled, or when every component it specifies agrees with the
version, the pre-release tag included. -/
def specCompatOk (version : Version) (c : Comparator) : Bool :=
  !handledOp c.op ||
    (c.major = version.major && c.minor.all (fun m => m = version.minor) &&
      c.patch.all (fun p => p = version.patch) && c.pre = version.pre)

/-- Decimal number of the semver grammar: nonempty, digits only, no
leading zero except for `0` itself.  Model of the numeric-identifier rule
of the semver collaborator. -/
def parseNum (cs : List Char) : Option Nat :=
  if cs = [] then none
  else if !cs.all Char.isDigit then none
  else if cs.length > 1 && cs.head? = some '0' then none
  else some (cs.foldl (fun n c => n * 10 + (c.toNat - 48)) 0)

/-- Split a character list on `.` separators. -/
def splitDots (cs : List Char) : List (List Char) :=
  cs.foldr
    (fun c acc =>
      if c = '.' then [] :: acc
      else
        match acc with
        | [] => [[c]]
        | a :: rest => (c :: a) :: rest)
    [[]]

/-- Model of the semver collaborator's requirement parser
(`semver::VersionReq::parse`), restricted to the forms the embedded code
feeds it: `*` (the empty-comparator star requirement) and bare
`major[.minor[.patch[-pre]]]` requirements, which parse to a single
comparator with the default caret operator.  Other inputs are rejected. -/
def parseVersionReq (s : String) : Except String VersionReq :=
  if s = "*" then Except.ok ⟨[]⟩
  else
    let cs := s.toList
    let core := cs.takeWhile (fun c => c ≠ '-')
    let rest := cs.dropWhile (fun c => c ≠ '-')
    let pre := (rest.drop 1).asString
    match splitDots core with
    | [a] =>
      if rest ≠ [] then Except.error "unexpected character in requirement"
      else
        match parseNum a with
        | some major => Except.ok ⟨[⟨Op.caret, major, none, none, ""⟩]⟩
        | none => Except.error "unexpected character in requirement"
    | [a, b] =>
      if rest ≠ [] then Except.error "unexpected character in requirement"
      else
        match parseNum a, parseNum b with
        | some major, some minor =>
          Except.ok ⟨[⟨Op.caret, major, some minor, none, ""⟩]⟩
        | _, _ => Except.error "unexpected character in requirement"
    | [a, b, c] =>
      if rest ≠ [] && pre = "" then Except.error "empty identifier segment"
      else
        match parseNum a, parseNum b, parseNum c with
        | some major, some minor, some patch =>
          Except.ok ⟨[⟨Op.caret, major, some minor, some patch, pre⟩]⟩
        | _, _, _ => Except.error "unexpected character in requirement"
    | _ => Except.error "unexpected character in requirement"

/-- The inner `for semver in semver_re.find_iter(m.as_str())` loop of
`check_only_contains_regex` (src/contains_regex.rs lines 128-148): each
extracted version substring is parsed (a parse failure aborts the whole
check) and counted as an error when it does not match the package
version. -/
def scanSemvers (version : Version) : List String → Nat → Except String Nat
  | [], errors => Except.ok errors
  | s :: rest, errors =>
    match parseVersionReq s with
    | Except.error err => Except.error ("could not parse version: " ++ err)
    | Except.ok req =>
      match version_matches_request version req with
      | Except.error _ => scanSemvers version rest (errors + 1)
      | Except.ok _ => scanSemvers version rest errors

/-- The outer `for m in re.find_iter(&text)` loop of
`check_only_contains_regex` (src/contains_regex.rs lines 124-149),
threading the error counter through the matches. -/
def scanMatches (version : Version) : List (List String) → Nat → Except String Nat
  | [], errors => Except.ok errors
  | m :: rest, errors =>
    match scanSemvers version m errors with
    | Except.error e => Except.error e
    | Except.ok errors2 => scanMatches version rest errors2

/-- `check_only_contains_regex` from src/contains_regex.rs (lines
99-162), from the match loop on.  The regex collaborator is modelled by
its output: `ms` lists, for every non-overlapping match of the expanded
template in the file, the version substrings that the embedded SemVer
regex finds inside that match; `has_match` of the source is `!ms.isEmpty`.
The package-version parse and file read that precede the loop are the
semver and I/O collaborators. -/
def check_only_contains_regex (path template : String) (version : Version)
    (ms : List (List String)) : Except String Unit :=
  match scanMatches version ms 0 with
  | Except.error e => Except.error e
  | Except.ok errors =>
    if ms.isEmpty then
      Except.error (path ++ " ... found no matches for \"" ++ template ++ "\"")
    else if errors > 0 then
      Except.error (path ++ " ... found " ++ Nat.repr errors ++ " errors")
    else Except.ok ()

/-- Spec-side verdict for one extracted version substring: it parses and
the parsed requirement does not match the package version. -/
def specMismatch (version : Version) (s : String) : Bool :=
  match parseVersionReq s with
  | Except.ok req =>
    match version_matches_request version req with
    | Except.ok _ => false
    | Except.error _ => true
  | Except.error _ => false

/-- Whether a version substring parses as a requirement at all. -/
def reqParses (s : String) : Bool :=
  match parseVersionReq s with
  | Except.ok _ => true
  | Except.error _ => false

/-- The characters the regex collaborator's `escape` function prefixes
with a backslash (`regex_syntax::is_meta_character`). -/
def metaChars : List Char :=
  ['\\', '.', '+', '*', '?', '(', ')', '|', '[', ']', '\x7b', '\x7d',
   '^', '$', '#', '&', '-', '~']

/-- Model of `regex::escape`: every meta character is preceded by a
backslash, all other characters are kept as they are. -/
def escapeRegex (cs : List Char) : List Char :=
  cs.foldr (fun c acc => if metaChars.contains c then '\\' :: c :: acc else c :: acc) []

/-- Worker for `replaceSub`, structurally recursive on a fuel bound on
the number of characters still to be scanned. -/
def replaceSubAux (pat rep : List Char) : Nat → List Char → List Char
  | 0, s => s
  | fuel + 1, s =>
    match s with
    | [] => []
    | c :: rest =>
      if pat.isPrefixOf (c :: rest) ∧ pat ≠ [] then
        rep ++ replaceSubAux pat rep fuel ((c :: rest).drop pat.length)
      else
        c :: replaceSubAux pat rep fuel rest

/-- Model of Rust's `str::replace`: replace the non-overlapping
occurrences of `pat`, scanning left to right.  (The sources only use
nonempty patterns; an empty `pat` leaves the string unchanged here.) -/
def replaceSub (pat rep : List Char) (s : List Char) : List Char :=
  replaceSubAux pat rep s.length s

/-- The pattern built by `check_contains_regex` (src/contains_regex.rs
lines 46-48): the `\x7bname\x7d` and `\x7bversion\x7d` placeholders are
replaced by the regex-escaped package name and version. -/
def check_contains_regex_pattern (template pkg_name pkg_version : String) :
    List Char :=
  replaceSub "\x7bversion\x7d".toList (escapeRegex pkg_version.toList)
    (replaceSub "\x7bname\x7d".toList (escapeRegex pkg_name.toList) template.toList)

/-- The characters that carry special meaning in a regex outside a
character class; a pattern using one of them unescaped is not a plain
literal. -/
def regexSpecial : List Char :=
  ['\\', '.', '+', '*', '?', '(', ')', '|', '[', ']', '\x7b', '\x7d', '^', '$']

/-- Read a regex pattern as a plain literal: `\c` with a non-alphanumeric
`c` denotes the character `c`, a character outside `regexSpecial` denotes
itself, and anything else (an unescaped special character, an alphanumeric
escape, a trailing backslash) is rejected with `none`. -/
def unescapeLit : List Char → Option (List Char)
  | [] => some []
  | ['\\'] => none
  | '\\' :: c :: rest =>
    if c.isAlphanum then none
    else (unescapeLit rest).map (fun l => c :: l)
  | c :: rest =>
    if regexSpecial.contains c then none
    else (unescapeLit rest).map (fun l => c :: l)

/-- Model of `str::find` / first-match search: the least offset at which
`pat` occurs in the text. -/
def findSub (pat : List Char) : List Char → Option Nat
  | [] => if pat.isPrefixOf ([] : List Char) then some 0 else none
  | c :: rest =>
    if pat.isPrefixOf (c :: rest) then some 0
    else (findSub pat rest).map (fun n => n + 1)

/-- Model of the regex collaborator's matching, on the fragment it is
used for here: a pattern that denotes a plain literal matches a text
exactly when that literal occurs in the text. -/
def litIsMatch (pat text : List Char) : Bool :=
  match unescapeLit pat with
  | some lit => (findSub lit text).isSome
  | none => false

/-- Number of newline characters in a character list: the measure the
specification's line-numbering rule is phrased in. -/
def countNl : List Char → Nat
  | [] => 0
  | c :: rest => (if c = '\n' then 1 else 0) + countNl rest

/-- Model of Rust's `str::lines().count()`: a newline closes a line, and
a trailing fragment not closed by a newline still counts as a line.  The
boolean records whether the current fragment is nonempty. -/
def linesCntAux : List Char → Bool → Nat
  | [], seen => if seen then 1 else 0
  | c :: rest, _ =>
    if c = '\n' then 1 + linesCntAux rest false
    else linesCntAux rest true

/-- `str::lines().count()` on a whole string. -/
def linesCnt (cs : List Char) : Nat :=
  linesCntAux cs false

/-- The line number the sources report for a match starting at offset
`idx`: `text[..idx].lines().count()` plus one (src/contains_substring.rs
lines 38-39, src/contains_regex.rs line 126). -/
def reportedLine (text : List Char) (idx : Nat) : Nat :=
  linesCnt (text.take idx) + 1

/-- TOML values at the interface src/markdown_deps.rs uses: string
values, tables, and anything else collapsed into `other` (the toml
collaborator's `Value`). -/
inductive Toml where
  | str : String → Toml
  | table : List (String × Toml) → Toml
  | other : Toml

/-- `Value::get` of the toml collaborator: look a key up in a table
(TOML tables have distinct keys), `none` on non-tables. -/
def Toml.get : Toml → String → Option Toml
  | Toml.table kvs, key => (kvs.find? (fun kv => kv.fst == key)).map (fun kv => kv.snd)
  | _, _ => none

/-- `Value::as_str` of the toml collaborator. -/
def Toml.asStr : Toml → Option String
  | Toml.str s => some s
  | _ => none

/-- The version-resolution chain applied to a dependency entry
(src/markdown_deps.rs lines 26-34): an explicit string `version` field of
a table, else `*` when a `git` field is present, else the entry itself as
a string. -/
def resolveDep (dep : Toml) : Option String :=
  ((dep.get "version").bind Toml.asStr).orElse
    (fun _ => ((dep.get "git").map (fun _ => "*")).orElse
      (fun _ => dep.asStr))

/-- `extract_version_request` from src/markdown_deps.rs (lines 19-43).
The toml collaborator's parse of the block text is the `block` input:
`Except.error` is a TOML syntax error, `Except.ok` the parsed value. -/
def extract_version_request (pkg_name : String) (block : Except String Toml) :
    Except String VersionReq :=
  match block with
  | Except.error err => Except.error ("TOML parse error: " ++ err)
  | Except.ok value =>
    let version :=
      (((value.get "dependencies").orElse
          (fun _ => value.get "dev-dependencies")).bind
        (fun deps => deps.get pkg_name)).bind resolveDep
    match version with
    | some v =>
      match parseVersionReq v with
      | Except.ok req => Except.ok req
      | Except.error err => Except.error ("could not parse dependency: " ++ err)
    | none => Except.error ("no dependency on " ++ pkg_name)

/-- One iteration of the block loop of `check_markdown_deps`
(src/markdown_deps.rs lines 136-147): a block fails when extraction or
version matching fails. -/
def blockFailed (pkg_name : String) (version : Version)
    (block : Except String Toml) : Bool :=
  match extract_version_request pkg_name block with
  | Except.error _ => true
  | Except.ok req =>
    match version_matches_request version req with
    | Except.error _ => true
    | Except.ok _ => false

/-- `check_markdown_deps` from src/markdown_deps.rs (lines 129-153), from
the block loop on.  The markdown and toml collaborators provide the list
of relevant fenced blocks, each already TOML-parsed; the `failed` flag is
folded over the blocks exactly as in the source loop. -/
def check_markdown_deps (path pkg_name : String) (version : Version)
    (blocks : List (Except String Toml)) : Except String Unit :=
  if blocks.foldl (fun failed b => failed || blockFailed pkg_name version b) false then
    Except.error ("dependency errors in " ++ path)
  else Except.ok ()

/-- Rust's `{:?}` formatting of a string: double quotes around the text,
with quotes and backslashes escaped. -/
def rustDebugStr (s : String) : String :=
  "\"" ++ (s.toList.foldr
    (fun c acc => if c = '"' ∨ c = '\\' then '\\' :: c :: acc else c :: acc)
    []).asString ++ "\""

/-- A parsed URL at the interface src/html_root_url.rs uses (the url
collaborator): scheme, optional domain, and path segments when the URL
can have them. -/
structure Url where
  scheme : String
  domain : Option String
  pathSegments : Option (List String)

/-- `url_matches` from src/html_root_url.rs (lines 9-54), after the url
collaborator has parsed the attribute value. -/
def url_matches (url : Url) (pkg_name : String) (version : Version) :
    Except String Unit :=
  if url.domain.isSome ∧ url.domain ≠ some "docs.rs" then Except.ok ()
  else if url.scheme ≠ "https" then
    Except.error ("expected \"https\", found " ++ rustDebugStr url.scheme)
  else
    match url.pathSegments with
    | none => Except.error "no path in URL"
    | some segs =>
      match segs with
      | [] => Except.error "missing package name"
      | name :: rest =>
        if name = "" then Except.error "missing package name"
        else
          match rest with
          | [] => Except.error "missing version number"
          | request :: _ =>
            if request = "" then Except.error "missing version number"
            else if name ≠ pkg_name then
              Except.error ("expected package \"" ++ pkg_name ++
                "\", found \"" ++ name ++ "\"")
            else
              match parseVersionReq request with
              | Except.error err =>
                Except.error ("could not parse version in URL: " ++ err)
              | Except.ok req => version_matches_request version req

/-! Helper lemmas about the comparator loop. -/

/-- One comparator passes the loop body exactly when it is spec-compatible
with the version. -/
theorem matchComparator_ok_iff (v : Version) (c : Comparator) :
    matchComparator v c = Except.ok () ↔ specCompatOk v c = true := by
  obtain ⟨op, major, minor, patch, pre⟩ := c
  cases op <;>
    cases minor <;> cases patch <;>
      simp only [matchComparator, matchComparatorPatch, matchComparatorPre, specCompatOk,
        handledOp, ne_eq, Bool.not_true, Bool.not_false,
        Bool.false_or, Bool.true_or, decide_eq_true_eq, Bool.and_eq_true] <;>
      split_ifs <;> simp_all

/-- The comparator loop succeeds exactly when every comparator passes. -/
theorem checkComparators_ok_iff (v : Version) (l : List Comparator) :
    checkComparators v l = Except.ok () ↔ ∀ c ∈ l, matchComparator v c = Except.ok () := by
  induction l with
  | nil => simp [checkComparators]
  | cons c rest ih =>
    cases h : matchComparator v c with
    | error e => simp [checkComparators, h]
    | ok u =>
      cases u
      simp [checkComparators, h, ih]

/-- On a handled operator, the loop body is the sequential component
check. -/
theorem matchComparator_handled_eq (v : Version) (c : Comparator)
    (h : handledOp c.op = true) :
    matchComparator v c =
      (if c.major ≠ v.major then
        Except.error ("expected major version " ++ Nat.repr v.major ++
          ", found " ++ Nat.repr c.major)
      else match c.minor with
      | some minor =>
        if minor ≠ v.minor then
          Except.error ("expected minor version " ++ Nat.repr v.minor ++
            ", found " ++ Nat.repr minor)
        else matchComparatorPatch v c
      | none => matchComparatorPatch v c) := by
  obtain ⟨op, major, minor, patch, pre⟩ := c
  cases op <;> first | rfl | simp [handledOp] at h

/-- A one-comparator requirement reports exactly the loop body's
outcome. -/
theorem vmr_singleton (v : Version) (c : Comparator) :
    version_matches_request v ⟨[c]⟩ =
      match matchComparator v c with
      | Except.error e => Except.error e
      | Except.ok _ => Except.ok () := by
  rw [version_matches_request]
  cases h : matchComparator v c with
  | error e => simp [checkComparators, h]
  | ok u => cases u; simp [checkComparators, h]

/-- C1, counterexample: a requirement with two comparators is not passed
through unchecked — `1.2.3` against `>= 1.2.0, < 2.0` fails (the source's
own `multiple_comparators` test asserts exactly this), refuting the claim
that a comparator count other than one always yields success. -/
theorem c1_multi_comparator_can_fail :
    version_matches_request ⟨1, 2, 3, "", ""⟩
        ⟨[⟨Op.greaterEq, 1, some 2, some 0, ""⟩, ⟨Op.less, 2, some 0, none, ""⟩]⟩ =
      Except.error "expected patch version 3, found 0" ∧
    version_matches_request ⟨1, 2, 3, "", ""⟩
        ⟨[⟨Op.greaterEq, 1, some 2, some 0, ""⟩, ⟨Op.less, 2, some 0, none, ""⟩]⟩ ≠
      Except.ok () ∧
    (⟨[⟨Op.greaterEq, 1, some 2, some 0, ""⟩, ⟨Op.less, 2, some 0, none, ""⟩]⟩ :
      VersionReq).comparators.length = 2 := by
  refine ⟨rfl, ?_, rfl⟩
  intro h
  rw [show version_matches_request ⟨1, 2, 3, "", ""⟩
      ⟨[⟨Op.greaterEq, 1, some 2, some 0, ""⟩, ⟨Op.less, 2, some 0, none, ""⟩]⟩ =
      Except.error "expected patch version 3, found 0" from rfl] at h
  exact Except.noConfusion h

/-- C1, amended: `version_matches_request` inspects every comparator of
the requirement, whatever their number; it succeeds exactly when each
comparator either uses an unhandled operator or agrees with the version
on every component it specifies, the pre-release tag included. -/
theorem c1_ok_iff_all_comparators_compatible (v : Version) (r : VersionReq) :
    version_matches_request v r = Except.ok () ↔
      ∀ c ∈ r.comparators, specCompatOk v c = true := by
  rw [version_matches_request, checkComparators_ok_iff]
  exact forall₂_congr fun c _ => matchComparator_ok_iff v c

/-- Witness for C1's amended theorem at a two-comparator requirement. -/
theorem c1_witness :
    version_matches_request ⟨1, 2, 3, "", ""⟩
      ⟨[⟨Op.caret, 1, some 2, some 3, ""⟩, ⟨Op.less, 2, none, none, ""⟩]⟩ =
      Except.ok () :=
  (c1_ok_iff_all_comparators_compatible ⟨1, 2, 3, "", ""⟩
    ⟨[⟨Op.caret, 1, some 2, some 3, ""⟩, ⟨Op.less, 2, none, none, ""⟩]⟩).mpr (by decide)

/-- C2, counterexample: a single `>` or `>=` comparator is checked, not
passed vacuously — `1.2.3` against `> 1.2.0` (and `>= 1.2.0`) fails, as
the source's own `greater` and `greater_or_equal` tests assert. -/
theorem c2_greater_is_checked :
    version_matches_request ⟨1, 2, 3, "", ""⟩ ⟨[⟨Op.greater, 1, some 2, some 0, ""⟩]⟩ =
      Except.error "expected patch version 3, found 0" ∧
    version_matches_request ⟨1, 2, 3, "", ""⟩ ⟨[⟨Op.greaterEq, 1, some 2, some 0, ""⟩]⟩ =
      Except.error "expected patch version 3, found 0" ∧
    version_matches_request ⟨1, 2, 3, "", ""⟩ ⟨[⟨Op.greater, 1, some 2, some 0, ""⟩]⟩ ≠
      Except.ok () := by
  refine ⟨rfl, rfl, ?_⟩
  intro h
  rw [show version_matches_request ⟨1, 2, 3, "", ""⟩
      ⟨[⟨Op.greater, 1, some 2, some 0, ""⟩]⟩ =
      Except.error "expected patch version 3, found 0" from rfl] at h
  exact Except.noConfusion h

/-- C2, amended: only the operators the source does not handle — `<` and
`<=` — make a single-comparator requirement pass vacuously for every
version; `>` and `>=` comparators are checked like the others. -/
theorem c2_less_passes_vacuously (v : Version) (c : Comparator)
    (h : c.op = Op.less ∨ c.op = Op.lessEq) :
    version_matches_request v ⟨[c]⟩ = Except.ok () := by
  obtain ⟨op, major, minor, patch, pre⟩ := c
  rcases h with h | h <;> (cases h; rfl)

/-- Witness for C2's amended theorem: a wildly different `<` requirement
still passes. -/
theorem c2_witness :
    version_matches_request ⟨9, 9, 9, "x", ""⟩
      ⟨[⟨Op.less, 1, some 2, some 3, "rc"⟩]⟩ = Except.ok () :=
  c2_less_passes_vacuously ⟨9, 9, 9, "x", ""⟩ ⟨Op.less, 1, some 2, some 3, "rc"⟩
    (Or.inl rfl)

/-- C3, counterexample: for a version with a pre-release identifier, a
requirement giving only the major (or major and minor) component fails:
the pre-release tags are compared unconditionally, with or without a
patch component in the comparator — `1.2.3-rc1` fails against `1` and
against `1.2`. -/
theorem c3_prerelease_fails_partial_requirement :
    version_matches_request ⟨1, 2, 3, "rc1", ""⟩ ⟨[⟨Op.caret, 1, none, none, ""⟩]⟩ =
      Except.error "expected pre-release \"rc1\", found \"\"" ∧
    version_matches_request ⟨1, 2, 3, "rc1", ""⟩ ⟨[⟨Op.caret, 1, some 2, none, ""⟩]⟩ =
      Except.error "expected pre-release \"rc1\", found \"\"" := ⟨rfl, rfl⟩

/-- C3, amended: wildcard-by-omission holds for versions without a
pre-release identifier — a single comparator with the version's major
component (and optionally its minor), no patch and no pre-release tag
succeeds whenever the version's own pre-release is empty. -/
theorem c3_wildcard_by_omission_without_pre (v : Version) (c : Comparator)
    ( _hop : handledOp c.op = true) (hmaj : c.major = v.major)
    (hmin : c.minor = none ∨ c.minor = some v.minor)
    (hpatch : c.patch = none) (hcpre : c.pre = "") (hvpre : v.pre = "") :
    version_matches_request v ⟨[c]⟩ = Except.ok () := by
  rw [version_matches_request, checkComparators_ok_iff]
  intro c' hc'
  rw [List.mem_singleton.mp hc', matchComparator_ok_iff]
  rcases hmin with hmin | hmin <;>
    simp [specCompatOk, hmaj, hmin, hpatch, hcpre, hvpre]

/-- Witness for C3's amended theorem: `1.2.3` passes the requirement
`1`. -/
theorem c3_witness :
    version_matches_request ⟨1, 2, 3, "", ""⟩ ⟨[⟨Op.caret, 1, none, none, ""⟩]⟩ =
      Except.ok () :=
  c3_wildcard_by_omission_without_pre ⟨1, 2, 3, "", ""⟩ ⟨Op.caret, 1, none, none, ""⟩
    rfl rfl (Or.inl rfl) rfl rfl rfl

/-- C4: a failing check reports the version's component as "expected" and
the comparator's as "found", examining major, then minor, then patch,
then pre-release and stopping at the first difference; concretely,
version `1.3.0` against requirement `1.2.3` reports exactly
"expected minor version 3, found 2". -/
theorem c4_first_difference_error :
    (∀ (v : Version) (c : Comparator), handledOp c.op = true →
      (c.major ≠ v.major →
        version_matches_request v ⟨[c]⟩ =
          Except.error ("expected major version " ++ Nat.repr v.major ++
            ", found " ++ Nat.repr c.major)) ∧
      (c.major = v.major → ∀ m, c.minor = some m → m ≠ v.minor →
        version_matches_request v ⟨[c]⟩ =
          Except.error ("expected minor version " ++ Nat.repr v.minor ++
            ", found " ++ Nat.repr m)) ∧
      (c.major = v.major → c.minor.all (fun m => m = v.minor) = true →
        ∀ p, c.patch = some p → p ≠ v.patch →
        version_matches_request v ⟨[c]⟩ =
          Except.error ("expected patch version " ++ Nat.repr v.patch ++
            ", found " ++ Nat.repr p)) ∧
      (c.major = v.major → c.minor.all (fun m => m = v.minor) = true →
        c.patch.all (fun p => p = v.patch) = true → c.pre ≠ v.pre →
        version_matches_request v ⟨[c]⟩ =
          Except.error ("expected pre-release \"" ++ v.pre ++
            "\", found \"" ++ c.pre ++ "\""))) ∧
    version_matches_request ⟨1, 3, 0, "", ""⟩ ⟨[⟨Op.caret, 1, some 2, some 3, ""⟩]⟩ =
      Except.error "expected minor version 3, found 2" := by
  refine ⟨?_, rfl⟩
  intro v c hop
  refine ⟨?_, ?_, ?_, ?_⟩
  · intro hne
    rw [vmr_singleton, matchComparator_handled_eq v c hop, if_pos hne]
  · intro hmaj m hm hne
    rw [vmr_singleton, matchComparator_handled_eq v c hop,
      if_neg (by simp [hmaj]), hm]
    simp [hne]
  · intro hmaj hmin p hp hne
    rw [vmr_singleton, matchComparator_handled_eq v c hop, if_neg (by simp [hmaj])]
    have hpatch : matchComparatorPatch v c =
        Except.error ("expected patch version " ++ Nat.repr v.patch ++
          ", found " ++ Nat.repr p) := by
      rw [matchComparatorPatch, hp]
      simp [hne]
    cases hmm : c.minor with
    | none => rw [hpatch]
    | some m =>
      have : m = v.minor := by simpa [hmm] using hmin
      simp [this, hpatch]
  · intro hmaj hmin hpatch hne
    rw [vmr_singleton, matchComparator_handled_eq v c hop, if_neg (by simp [hmaj])]
    have hpre : matchComparatorPre v c =
        Except.error ("expected pre-release \"" ++ v.pre ++
          "\", found \"" ++ c.pre ++ "\"") := by
      rw [matchComparatorPre, if_pos hne]
    have hp : matchComparatorPatch v c =
        Except.error ("expected pre-release \"" ++ v.pre ++
          "\", found \"" ++ c.pre ++ "\"") := by
      cases hpp : c.patch with
      | none => rw [matchComparatorPatch, hpp, hpre]
      | some p =>
        have : p = v.patch := by simpa [hpp] using hpatch
        rw [matchComparatorPatch, hpp]
        simp [this, hpre]
    cases hmm : c.minor with
    | none => rw [hp]
    | some m =>
      have : m = v.minor := by simpa [hmm] using hmin
      simp [this, hp]

/-- Witness for C4 at a major-component mismatch. -/
theorem c4_witness :
    version_matches_request ⟨2, 0, 0, "", ""⟩ ⟨[⟨Op.exact, 1, none, none, ""⟩]⟩ =
      Except.error "expected major version 2, found 1" :=
  (c4_first_difference_error.1 ⟨2, 0, 0, "", ""⟩ ⟨Op.exact, 1, none, none, ""⟩
    rfl).1 (by decide)

/-- When every extracted version substring parses, the inner loop counts
exactly the mismatching ones on top of the running counter. -/
theorem scanSemvers_eq (version : Version) (l : List String) (k : Nat)
    (h : ∀ s ∈ l, reqParses s = true) :
    scanSemvers version l k = Except.ok (k + l.countP (specMismatch version)) := by
  induction l generalizing k with
  | nil => simp [scanSemvers, List.countP_nil]
  | cons s rest ih =>
    have hs : reqParses s = true := h s (by simp)
    have hrest : ∀ x ∈ rest, reqParses x = true := fun x hx => h x (by simp [hx])
    cases hp : parseVersionReq s with
    | error e => simp [reqParses, hp] at hs
    | ok req =>
      cases hv : version_matches_request version req with
      | error e =>
        simp [scanSemvers, hp, hv, ih _ hrest, List.countP_cons, specMismatch]
        omega
      | ok u =>
        cases u
        simp [scanSemvers, hp, hv, ih _ hrest, List.countP_cons, specMismatch]

/-- When every extracted version substring parses, the match loop returns
the total mismatch count. -/
theorem scanMatches_eq (version : Version) (ms : List (List String)) (k : Nat)
    (h : ∀ l ∈ ms, ∀ s ∈ l, reqParses s = true) :
    scanMatches version ms k =
      Except.ok (k + ms.flatten.countP (specMismatch version)) := by
  induction ms generalizing k with
  | nil => simp [scanMatches, List.flatten]
  | cons m rest ih =>
    have hm : ∀ s ∈ m, reqParses s = true := h m (by simp)
    have hrest : ∀ l ∈ rest, ∀ s ∈ l, reqParses s = true :=
      fun l hl => h l (by simp [hl])
    simp [scanMatches, scanSemvers_eq version m k hm, ih _ hrest, List.flatten,
      List.countP_append]
    omega

/-- C5: `check_only_contains_regex` has three terminal outcomes — no
match at all yields the distinct "found no matches" error; at least one
match with `N ≥ 1` incompatible embedded versions yields "found N
errors"; at least one match with all versions compatible yields success.
Concretely, three `docs.rs` occurrences at `1.0.0`, `2.0.0`, `3.0.0`
against package version `2.0.0` report exactly 2 errors. -/
theorem c5_three_outcomes :
    (∀ (path template : String) (version : Version),
      check_only_contains_regex path template version [] =
        Except.error (path ++ " ... found no matches for \"" ++ template ++ "\"")) ∧
    (∀ (path template : String) (version : Version) (ms : List (List String)),
      ms ≠ [] → (∀ l ∈ ms, ∀ s ∈ l, reqParses s = true) →
      (0 < ms.flatten.countP (specMismatch version) →
        check_only_contains_regex path template version ms =
          Except.error (path ++ " ... found " ++
            Nat.repr (ms.flatten.countP (specMismatch version)) ++ " errors")) ∧
      (ms.flatten.countP (specMismatch version) = 0 →
        check_only_contains_regex path template version ms = Except.ok ())) ∧
    check_only_contains_regex "README.md"
        "docs.rs/\x7bname\x7d/\x7bversion\x7d/\x7bname\x7d/" ⟨2, 0, 0, "", ""⟩
        [["1.0.0"], ["2.0.0"], ["3.0.0"]] =
      Except.error "README.md ... found 2 errors" := by
  refine ⟨fun path template version => rfl, ?_, rfl⟩
  intro path template version ms hne hall
  rcases ms with _ | ⟨m, rest⟩
  · exact absurd rfl hne
  constructor
  · intro hpos
    rw [check_only_contains_regex, scanMatches_eq version (m :: rest) 0 hall]
    simp only [List.isEmpty_cons, Nat.zero_add]
    rw [if_neg (by simp), if_pos hpos]
  · intro hzero
    rw [check_only_contains_regex, scanMatches_eq version (m :: rest) 0 hall]
    simp only [List.isEmpty_cons, Nat.zero_add, hzero]
    rw [if_neg (by simp)]
    simp

/-- Witness for C5's conditional part: one match with one incompatible
version reports "found 1 errors". -/
theorem c5_witness :
    check_only_contains_regex "a" "t" ⟨2, 0, 0, "", ""⟩ [["1.0.0"]] =
      Except.error "a ... found 1 errors" :=
  (c5_three_outcomes.2.1 "a" "t" ⟨2, 0, 0, "", ""⟩ [["1.0.0"]]
    (by decide) (by decide)).1 (by decide)

/-- C6: `check_contains_regex` escapes regex metacharacters in the
package name and version before substitution — expanding
`\x7bname\x7d-\x7bversion\x7d` with name `foo*bar` and version `1.2.3`
produces the pattern `foo\*bar-1\.2\.3`, which matches the literal text
`foo*bar-1.2.3` and does not match `fooXbar-1.2.3`. -/
theorem c6_escaping_round_trip :
    check_contains_regex_pattern "\x7bname\x7d-\x7bversion\x7d" "foo*bar" "1.2.3" =
      "foo\\*bar-1\\.2\\.3".toList ∧
    litIsMatch (check_contains_regex_pattern "\x7bname\x7d-\x7bversion\x7d"
        "foo*bar" "1.2.3") "foo*bar-1.2.3".toList = true ∧
    litIsMatch (check_contains_regex_pattern "\x7bname\x7d-\x7bversion\x7d"
        "foo*bar" "1.2.3") "fooXbar-1.2.3".toList = false := by
  refine ⟨by decide, by decide, by decide⟩

/-- C7, counterexample: in the three-line text `ab\ncd\nef` the substring
`d` is found at offset 4, on the second line (one newline strictly before
it, so the claim predicts line 2), yet the reported line number is 3. -/
theorem c7_midline_match_misreported :
    findSub "d".toList "ab\ncd\nef".toList = some 4 ∧
    countNl ("ab\ncd\nef".toList.take 4) + 1 = 2 ∧
    reportedLine "ab\ncd\nef".toList 4 = 3 ∧
    reportedLine "ab\ncd\nef".toList 4 ≠
      countNl ("ab\ncd\nef".toList.take 4) + 1 := by
  refine ⟨by decide, by decide, by decide, by decide⟩

/-- `lines().count()` equals the newline count, plus one for a trailing
fragment not closed by a newline. -/
theorem linesCntAux_eq (cs : List Char) : ∀ b, linesCntAux cs b =
    countNl cs + (if cs = [] then (if b then 1 else 0)
      else if cs.getLast? = some '\n' then 0 else 1) := by
  induction cs with
  | nil => intro b; simp [linesCntAux, countNl]
  | cons c rest ih =>
    intro b
    have step : linesCntAux (c :: rest) b =
        if c = '\n' then 1 + linesCntAux rest false else linesCntAux rest true := rfl
    rw [step]
    by_cases hc : c = '\n'
    · rw [if_pos hc, ih false]
      cases rest with
      | nil => simp [countNl, hc]
      | cons d tail =>
        simp [countNl, hc, List.getLast?_cons_cons]
        try omega
    · rw [if_neg hc, ih true]
      cases rest with
      | nil => simp [countNl, hc]
      | cons d tail =>
        simp [countNl, hc, List.getLast?_cons_cons]
        try omega

/-- C7, amended: the reported line number is the newline count before the
match plus one exactly when the match starts at the beginning of a line
(offset zero or right after a newline); a match starting mid-line is
reported one line too high (newline count plus two).  In particular a
match at the start of the second line of a three-line file is reported as
line 2. -/
theorem c7_line_number_characterization :
    (∀ (text : List Char) (idx : Nat),
      reportedLine text idx =
        if text.take idx = [] ∨ (text.take idx).getLast? = some '\n' then
          countNl (text.take idx) + 1
        else countNl (text.take idx) + 2) ∧
    reportedLine "ab\ncd\nef".toList 3 = 2 := by
  refine ⟨?_, by decide⟩
  intro text idx
  rw [reportedLine, linesCnt, linesCntAux_eq]
  by_cases h1 : text.take idx = []
  · simp [h1, countNl]
  · by_cases h2 : (text.take idx).getLast? = some '\n' <;> simp [h1, h2]

/-- C8: the dependency requirement is resolved in the order — explicit
string `version` field of a table first, then `*` for a `git` field, then
the entry's own string value; concretely the block
`foobar = \x7b version = "1.5", git = "..." \x7d` resolves to the
requirement `1.5`, not `*`. -/
theorem c8_version_field_precedence :
    (∀ (dep : Toml) (s : String),
      (dep.get "version").bind Toml.asStr = some s → resolveDep dep = some s) ∧
    (∀ dep : Toml, (dep.get "version").bind Toml.asStr = none →
      (dep.get "git").isSome = true → resolveDep dep = some "*") ∧
    (∀ s : String, resolveDep (Toml.str s) = some s) ∧
    extract_version_request "foobar"
        (Except.ok (Toml.table [("dependencies", Toml.table [("foobar",
          Toml.table [("version", Toml.str "1.5"),
            ("git", Toml.str "https://example.net/foobar.git")])])])) =
      Except.ok ⟨[⟨Op.caret, 1, some 5, none, ""⟩]⟩ := by
  refine ⟨?_, ?_, fun s => rfl, rfl⟩
  · intro dep s h
    simp [resolveDep, h]
  · intro dep h hg
    obtain ⟨g, hg'⟩ := Option.isSome_iff_exists.mp hg
    simp [resolveDep, h, hg']

/-- Witness for C8: a table with both `version` and `git` resolves to the
version string. -/
theorem c8_witness :
    resolveDep (Toml.table [("version", Toml.str "2.0"), ("git", Toml.str "g")]) =
      some "2.0" :=
  c8_version_field_precedence.1
    (Toml.table [("version", Toml.str "2.0"), ("git", Toml.str "g")]) "2.0" rfl

/-- C9: `url_matches` succeeds vacuously on any URL whose domain is
present and differs from docs.rs, whatever the scheme or path; for a
docs.rs or domain-less URL, a scheme other than `https` is a hard
failure naming the scheme found. -/
theorem c9_foreign_domain_vacuous (url : Url) (pkg_name : String) (version : Version) :
    (∀ d, url.domain = some d → d ≠ "docs.rs" →
      url_matches url pkg_name version = Except.ok ()) ∧
    ((url.domain = none ∨ url.domain = some "docs.rs") → url.scheme ≠ "https" →
      url_matches url pkg_name version =
        Except.error ("expected \"https\", found " ++ rustDebugStr url.scheme)) := by
  constructor
  · intro d hd hne
    rw [url_matches, if_pos ⟨by simp [hd], by simp [hd, hne]⟩]
  · intro hdom hsch
    have hcond : ¬(url.domain.isSome ∧ url.domain ≠ some "docs.rs") := by
      rcases hdom with h | h <;> simp [h]
    rw [url_matches, if_neg hcond, if_pos hsch]

/-- Witness for C9: an http URL on a foreign domain passes vacuously. -/
theorem c9_witness :
    url_matches ⟨"http", some "example.net", none⟩ "foo" ⟨1, 2, 3, "", ""⟩ =
      Except.ok () :=
  (c9_foreign_domain_vacuous ⟨"http", some "example.net", none⟩ "foo"
    ⟨1, 2, 3, "", ""⟩).1 "example.net" rfl (by decide)

/-- Folding the failure flag from `true` stays `true`. -/
theorem foldl_or_true (f : Except String Toml → Bool) (l : List (Except String Toml)) :
    l.foldl (fun acc x => acc || f x) true = true := by
  induction l <;> simp_all [List.foldl_cons]

/-- One failing block makes the folded failure flag `true`. -/
theorem foldl_or_of_mem (f : Except String Toml → Bool) (l : List (Except String Toml))
    (a : Except String Toml) (ha : a ∈ l) (hf : f a = true) :
    l.foldl (fun acc x => acc || f x) false = true := by
  induction l with
  | nil => cases ha
  | cons x rest ih =>
    rcases List.mem_cons.mp ha with rfl | hmem
    · simp [List.foldl_cons, hf, foldl_or_true]
    · simp only [List.foldl_cons, Bool.false_or]
      cases hx : f x
      · exact ih hmem
      · exact foldl_or_true f rest

/-- C10: a TOML block that parses but has no `dependencies` or
`dev-dependencies` entry for the package makes `check_markdown_deps`
fail with "dependency errors in <path>"; such a block yields the
"no dependency on <name>" error rather than being skipped — shown
concretely for a block containing only an unrelated `package` table. -/
theorem c10_missing_dependency_fails_check :
    (∀ (path pkg_name : String) (version : Version)
        (blocks : List (Except String Toml)) (value : Toml),
      Except.ok value ∈ blocks →
      (((value.get "dependencies").orElse
          (fun _ => value.get "dev-dependencies")).bind
        (fun deps => deps.get pkg_name)).bind resolveDep = none →
      check_markdown_deps path pkg_name version blocks =
        Except.error ("dependency errors in " ++ path)) ∧
    extract_version_request "foobar"
        (Except.ok (Toml.table [("package", Toml.table [("name", Toml.str "quux")])])) =
      Except.error "no dependency on foobar" := by
  refine ⟨?_, rfl⟩
  intro path pkg_name version blocks value hmem hnone
  have hext : extract_version_request pkg_name (Except.ok value) =
      Except.error ("no dependency on " ++ pkg_name) := by
    simp [extract_version_request, hnone]
  have hbf : blockFailed pkg_name version (Except.ok value) = true := by
    simp [blockFailed, hext]
  rw [check_markdown_deps,
    if_pos (foldl_or_of_mem (blockFailed pkg_name version) blocks _ hmem hbf)]

/-- Witness for C10 on a one-block file whose block lacks the package. -/
theorem c10_witness :
    check_markdown_deps "README.md" "foobar" ⟨1, 2, 3, "", ""⟩
        [Except.ok (Toml.table [("package", Toml.table [])])] =
      Except.error "dependency errors in README.md" :=
  c10_missing_dependency_fails_check.1 "README.md" "foobar" ⟨1, 2, 3, "", ""⟩
    [Except.ok (Toml.table [("package", Toml.table [])])]
    (Toml.table [("package", Toml.table [])]) (by simp) rfl

end VSync
